import Mathlib

/-!
# Voting store (src/main.c): shallow embedding and verified properties

The program keeps three tables (users, candidates, votes) in an SQLite
database and offers `register_user`, `add_candidate` and `vote`, plus the
fixed demo sequence of `main`.

Modelling choices.

* The database handle `sqlite3 *db` is an explicit store value `Db` that every
  operation receives and returns.
* The SQLite engine is not part of the sources.  Its behaviour is split in
  two: what a statement does when it runs (a small relational model, below),
  and whether the engine lets it run at all, which is an input of every call
  (`Engine`: the result of `sqlite3_prepare_v2` and a possible failure of
  `sqlite3_step`, per statement).  `Engine.ok` is the engine that reports no
  failure.
* Stored row ids are mathematical integers.  The program does no arithmetic
  on them; reaching the engine's largest row id is an execution failure
  reported by `sqlite3_step` and so falls under `Engine.step`.  Where the
  program reads a stored id into a C `int` (`sqlite3_column_int` in the
  listing loop) the value is reduced to 32 bits, two's complement.
* Foreign keys are declared by the schema but not enforced: the program never
  switches enforcement on, and it is off by default in SQLite.
* `const char *` arguments are `Option String`; `none` is the null pointer.
* Text written with `printf` is a list of `Msg` values, one per call.
* The clock is an input of `vote` (`Clock`): the broken-down local time that
  `localtime(time(NULL))` yields.
-/

namespace VotingSystem

/-! ## SQLite result codes -/

/-- Result code SQLITE_OK. -/
@[reducible] def SQLITE_OK : Int := 0

/-- Result code SQLITE_ERROR. -/
@[reducible] def SQLITE_ERROR : Int := 1

/-- Result code SQLITE_CONSTRAINT. -/
@[reducible] def SQLITE_CONSTRAINT : Int := 19

/-- Result code SQLITE_ROW. -/
@[reducible] def SQLITE_ROW : Int := 100

/-- Result code SQLITE_DONE. -/
@[reducible] def SQLITE_DONE : Int := 101

/-! ## Data model (schema created in `main`, lines 133-147) -/

/-- Row of `users(id, username, password_hash)`. -/
structure User where
  id : Int
  username : String
  password_hash : String
deriving DecidableEq, Repr

/-- Row of `candidates(id, name)`. -/
structure Candidate where
  id : Int
  name : String
deriving DecidableEq, Repr

/-- Row of `votes(id, user_id, candidate_id, timestamp)`. -/
structure Vote where
  id : Int
  user_id : Int
  candidate_id : Int
  timestamp : String
deriving DecidableEq, Repr

/-- Store state: the three tables, each in the order the engine scans it, and
the AUTOINCREMENT counters kept in `sqlite_sequence` (0 when the table has no
entry there). -/
structure Db where
  users : List User
  candidates : List Candidate
  votes : List Vote
  seq_users : Int
  seq_candidates : Int
  seq_votes : Int
deriving DecidableEq, Repr

/-- The store right after the tables were created: no rows, no counters. -/
def Db.empty : Db := ⟨[], [], [], 0, 0, 0⟩

/-! ## The engine -/

/-- The SQL texts the program hands to the engine. -/
inductive Sql where
  /-- Text: INSERT INTO users (username, password_hash) VALUES (?, ?); -/
  | insert_user
  /-- Text: SELECT id FROM users WHERE username = ?; -/
  | select_user
  /-- Text: INSERT INTO candidates (name) VALUES (?); -/
  | insert_candidate
  /-- Text: SELECT id FROM votes WHERE user_id = ?; -/
  | select_vote
  /-- Text: SELECT id FROM candidates WHERE id = ?; -/
  | select_candidate
  /-- Text: INSERT INTO votes (user_id, candidate_id, timestamp) VALUES (?, ?, ?); -/
  | insert_vote
  /-- Text: SELECT id, name FROM candidates; -/
  | list_candidates
  /-- Text: DELETE FROM votes; -/
  | delete_votes
  /-- Text: DELETE FROM users; -/
  | delete_users
  /-- Text: DELETE FROM candidates; -/
  | delete_candidates
  /-- Text: DELETE FROM sqlite_sequence WHERE name='candidates'; -/
  | delete_candidates_seq
deriving DecidableEq, Repr

/-- An SQLite error code: any result code other than SQLITE_OK, SQLITE_ROW and
SQLITE_DONE. -/
structure ErrCode where
  rc : Int
  is_error : rc ≠ SQLITE_OK ∧ rc ≠ SQLITE_ROW ∧ rc ≠ SQLITE_DONE

/-- Modelled from the spec: the failures of the underlying store (the SQLite
engine behind sqlite3.h is not part of the sources).  `prepare s = some err`
means `sqlite3_prepare_v2` fails with `err` on statement `s`
(QueryPreparationFailed); `step s = some err` means `sqlite3_step` fails with
`err` instead of running `s` (ExecutionFailed), the store being left as it
was. -/
structure Engine where
  prepare : Sql → Option ErrCode
  step : Sql → Option ErrCode

/-- The engine that prepares and runs every statement. -/
def Engine.ok : Engine := ⟨fun _ => none, fun _ => none⟩

/-- The generic error code SQLITE_ERROR. -/
def ErrCode.error : ErrCode := ⟨SQLITE_ERROR, by decide⟩

/-- An engine that cannot prepare statement `s` and is otherwise sound. -/
def Engine.prepare_fails (s : Sql) : Engine :=
  ⟨fun t => if t = s then some ErrCode.error else none, fun _ => none⟩

/-- Modelled from the spec: the result code of `sqlite3_prepare_v2(db, sql, -1, &stmt, 0)`. -/
def sqlite3_prepare_v2 (e : Engine) (sql : Sql) : Int :=
  match e.prepare sql with
  | none => SQLITE_OK
  | some err => err.rc

/-- Modelled from the spec: `sqlite3_step` on a prepared single-row lookup:
SQLITE_ROW when a row matches, SQLITE_DONE when none does, the error code when
the engine fails. -/
def step_select (e : Engine) (sql : Sql) (found : Bool) : Int :=
  match e.step sql with
  | some err => err.rc
  | none => if found then SQLITE_ROW else SQLITE_DONE

/-- Modelled from the spec: the id an AUTOINCREMENT table auto-assigns: one
more than the largest id in the table (1 for an empty table), and never less
than one more than the table's counter, so that it is larger than every id the
table has ever held. -/
def new_rowid (ids : List Int) (seq : Int) : Int :=
  let v : Int :=
    match ids with
    | [] => 1
    | i :: rest => rest.foldl max i + 1
  if v < seq + 1 then seq + 1 else v

/-- Modelled from the spec: `sqlite3_step` on the prepared insert into
`users`, with the two bound values.  Both columns are NOT NULL and `username`
is UNIQUE; a violation is SQLITE_CONSTRAINT and inserts nothing. -/
def step_insert_user (e : Engine) (db : Db) (username password_hash : Option String) :
    Int × Db :=
  match e.step Sql.insert_user with
  | some err => (err.rc, db)
  | none =>
    match username, password_hash with
    | some u, some h =>
      if db.users.any (fun r => r.username == u) then (SQLITE_CONSTRAINT, db)
      else
        let id := new_rowid (db.users.map User.id) db.seq_users
        (SQLITE_DONE, { db with users := db.users ++ [⟨id, u, h⟩], seq_users := id })
    | _, _ => (SQLITE_CONSTRAINT, db)

/-- Modelled from the spec: `sqlite3_step` on the prepared insert into
`candidates`, with the bound name.  `name` is NOT NULL. -/
def step_insert_candidate (e : Engine) (db : Db) (name : Option String) : Int × Db :=
  match e.step Sql.insert_candidate with
  | some err => (err.rc, db)
  | none =>
    match name with
    | some n =>
      let id := new_rowid (db.candidates.map Candidate.id) db.seq_candidates
      (SQLITE_DONE, { db with candidates := db.candidates ++ [⟨id, n⟩], seq_candidates := id })
    | none => (SQLITE_CONSTRAINT, db)

/-- Modelled from the spec: `sqlite3_step` on the prepared insert into
`votes`, with the three bound values.  The columns carry no constraint that
the engine enforces. -/
def step_insert_vote (e : Engine) (db : Db) (user_id candidate_id : Int)
    (timestamp : String) : Int × Db :=
  match e.step Sql.insert_vote with
  | some err => (err.rc, db)
  | none =>
    let id := new_rowid (db.votes.map Vote.id) db.seq_votes
    (SQLITE_DONE,
      { db with votes := db.votes ++ [⟨id, user_id, candidate_id, timestamp⟩], seq_votes := id })

/-- Modelled from the spec: `sqlite3_exec` on one of the four clean-up
statements of `main`.  Returns the result code and the store. -/
def sqlite3_exec (e : Engine) (db : Db) (sql : Sql) : Int × Db :=
  match e.prepare sql with
  | some err => (err.rc, db)
  | none =>
    match e.step sql with
    | some err => (err.rc, db)
    | none =>
      match sql with
      | Sql.delete_votes => (SQLITE_OK, { db with votes := [] })
      | Sql.delete_users => (SQLITE_OK, { db with users := [] })
      | Sql.delete_candidates => (SQLITE_OK, { db with candidates := [] })
      | Sql.delete_candidates_seq => (SQLITE_OK, { db with seq_candidates := 0 })
      | _ => (SQLITE_OK, db)

/-! ## The clock and `strftime` -/

/-- The fields of `struct tm` that the format reads. -/
structure Tm where
  tm_sec : Nat
  tm_min : Nat
  tm_hour : Nat
  tm_mday : Nat
  /-- Months since January. -/
  tm_mon : Nat
  /-- Years since 1900. -/
  tm_year : Int
deriving DecidableEq, Repr

/-- What `vote` reads from its environment besides the store: the local time
`localtime(&now)` and the bytes the uninitialised array `timestamp` happens
to hold, which are what gets bound when `strftime` writes nothing. -/
structure Clock where
  tm : Tm
  buf : String
deriving DecidableEq, Repr

/-- Conversion `%Y`: the year in decimal. -/
def fmt_Y (tm_year : Int) : List Char :=
  match tm_year + 1900 with
  | Int.ofNat k => Nat.toDigits 10 k
  | Int.negSucc k => '-' :: Nat.toDigits 10 (k + 1)

/-- Conversions `%m %d %H %M %S`: decimal, zero-padded to two digits. -/
def fmt_02 (n : Nat) : List Char :=
  if n < 10 then '0' :: Nat.toDigits 10 n else Nat.toDigits 10 n

/-- Modelled from the spec: `strftime(s, maxsize, "%Y-%m-%d %H:%M:%S", tm)`:
the text when it fits in `maxsize` bytes together with its terminator, `none`
when it does not (the C function then returns 0 and the array is left
indeterminate). -/
def strftime (maxsize : Nat) (tm : Tm) : Option String :=
  let s := fmt_Y tm.tm_year ++ '-' :: fmt_02 (tm.tm_mon + 1) ++ '-' :: fmt_02 tm.tm_mday
    ++ ' ' :: fmt_02 tm.tm_hour ++ ':' :: fmt_02 tm.tm_min ++ ':' :: fmt_02 tm.tm_sec
  if s.length + 1 ≤ maxsize then some (String.mk s) else none

/-- Lines 99-101 of `vote`: the text held by `char timestamp[20]` after
`strftime(timestamp, sizeof(timestamp), "%Y-%m-%d %H:%M:%S", localtime(&now))`. -/
def timestamp_array (clk : Clock) : String :=
  match strftime 20 clk.tm with
  | some s => s
  | none => clk.buf

/-- A local time that the calendar can show: four-digit year, month 0..11, day
1..31, hour 0..23, minute 0..59, second 0..60. -/
def Tm.valid (tm : Tm) : Prop :=
  1000 ≤ tm.tm_year + 1900 ∧ tm.tm_year + 1900 ≤ 9999 ∧ tm.tm_mon ≤ 11 ∧
    1 ≤ tm.tm_mday ∧ tm.tm_mday ≤ 31 ∧ tm.tm_hour ≤ 23 ∧ tm.tm_min ≤ 59 ∧ tm.tm_sec ≤ 60

instance (tm : Tm) : Decidable tm.valid := by
  unfold Tm.valid; infer_instance

/-- Value of a run of decimal digits, `none` if some character is not a digit. -/
def read_num (cs : List Char) : Option Nat :=
  cs.foldl (fun acc c =>
    match acc with
    | none => none
    | some n => if c.isDigit then some (10 * n + (c.toNat - 48)) else none) (some 0)

/-- Reader for the 19-character form `YYYY-MM-DD HH:MM:SS`: the six numbers
(year, month, day, hour, minute, second) when the text has exactly that
shape, `none` otherwise. -/
def read_timestamp (s : String) : Option (Nat × Nat × Nat × Nat × Nat × Nat) :=
  match s.data with
  | [y1, y2, y3, y4, a, m1, m2, b, d1, d2, c, h1, h2, p, n1, n2, q, s1, s2] =>
    if a = '-' ∧ b = '-' ∧ c = ' ' ∧ p = ':' ∧ q = ':' then
      match read_num [y1, y2, y3, y4], read_num [m1, m2], read_num [d1, d2],
        read_num [h1, h2], read_num [n1, n2], read_num [s1, s2] with
      | some y, some m, some d, some h, some n, some s => some (y, m, d, h, n, s)
      | _, _, _, _, _, _ => none
    else none
  | _ => none

/-! ## Program output -/

/-- The lines the program prints, one constructor per `printf`. -/
inductive Msg where
  /-- Line 34: the user already exists. -/
  | user_exists
  /-- Line 45: the candidate insert could not be prepared. -/
  | candidate_prepare_failed
  /-- Line 53: "Error of adding candidate %s: %s". -/
  | candidate_add_failed (name : Option String)
  /-- Line 55: "Candidate %s succesfully added!". -/
  | candidate_added (name : Option String)
  /-- Line 89: the user has already voted. -/
  | already_voted
  /-- Line 94: the candidate with this id does not exist. -/
  | candidate_not_found (candidate_id : Int)
  /-- Line 106: the vote insert could not be prepared. -/
  | vote_prepare_failed
  /-- Line 116: the vote insert could not be executed. -/
  | vote_step_failed
  /-- Line 181: "Candidate: ID=%d, Name=%s". -/
  | candidate_row (id : Int) (name : String)
  /-- Lines 189, 197: "Vote is registered!". -/
  | vote_registered
  /-- Lines 191, 199: "Error of registering the vote!". -/
  | vote_error
deriving DecidableEq, Repr

/-- What a call leaves behind: its return value, what it printed, the store. -/
structure Result where
  rc : Int
  out : List Msg
  db : Db
deriving DecidableEq, Repr

/-! ## The operations (src/main.c, lines 5-120) -/

/-- Function `add_user` (lines 5-17). -/
def add_user (e : Engine) (db : Db) (username password_hash : Option String) : Int × Db :=
  let rc := sqlite3_prepare_v2 e Sql.insert_user
  if rc ≠ SQLITE_OK then (rc, db)
  else
    let r := step_insert_user e db username password_hash
    (if r.1 = SQLITE_DONE then 0 else 1, r.2)

/-- Function `check_user_exists` (lines 19-30).  A null `username` is bound as
NULL, which the comparison `username = ?` never matches. -/
def check_user_exists (e : Engine) (db : Db) (username : Option String) : Int :=
  let rc := sqlite3_prepare_v2 e Sql.select_user
  if rc ≠ SQLITE_OK then -1
  else
    let found :=
      match username with
      | some u => db.users.any (fun r => r.username == u)
      | none => false
    let rc := step_select e Sql.select_user found
    if rc = SQLITE_ROW then 1 else 0

/-- Function `register_user` (lines 32-38). -/
def register_user (e : Engine) (db : Db) (username password_hash : Option String) : Result :=
  if check_user_exists e db username ≠ 0 then ⟨1, [Msg.user_exists], db⟩
  else
    let r := add_user e db username password_hash
    ⟨r.1, [], r.2⟩

/-- Function `add_candidate` (lines 40-59). -/
def add_candidate (e : Engine) (db : Db) (name : Option String) : Result :=
  let rc := sqlite3_prepare_v2 e Sql.insert_candidate
  if rc ≠ SQLITE_OK then ⟨rc, [Msg.candidate_prepare_failed], db⟩
  else
    let r := step_insert_candidate e db name
    ⟨if r.1 = SQLITE_DONE then 0 else 1,
      [if r.1 ≠ SQLITE_DONE then Msg.candidate_add_failed name else Msg.candidate_added name],
      r.2⟩

/-- Function `has_voted` (lines 61-72). -/
def has_voted (e : Engine) (db : Db) (user_id : Int) : Int :=
  let rc := sqlite3_prepare_v2 e Sql.select_vote
  if rc ≠ SQLITE_OK then -1
  else
    let rc := step_select e Sql.select_vote (db.votes.any (fun v => v.user_id == user_id))
    if rc = SQLITE_ROW then 1 else 0

/-- Function `candidate_exists` (lines 74-85). -/
def candidate_exists (e : Engine) (db : Db) (candidate_id : Int) : Int :=
  let rc := sqlite3_prepare_v2 e Sql.select_candidate
  if rc ≠ SQLITE_OK then -1
  else
    let rc := step_select e Sql.select_candidate
      (db.candidates.any (fun r => r.id == candidate_id))
    if rc = SQLITE_ROW then 1 else 0

/-- Function `vote` (lines 87-120).  The C conditions `if (has_voted(..))` and
`if (!candidate_exists(..))` test the returned int against 0. -/
def vote (e : Engine) (clk : Clock) (db : Db) (user_id candidate_id : Int) : Result :=
  if has_voted e db user_id ≠ 0 then ⟨1, [Msg.already_voted], db⟩
  else if candidate_exists e db candidate_id = 0 then
    ⟨1, [Msg.candidate_not_found candidate_id], db⟩
  else
    let timestamp := timestamp_array clk
    let rc := sqlite3_prepare_v2 e Sql.insert_vote
    if rc ≠ SQLITE_OK then ⟨rc, [Msg.vote_prepare_failed], db⟩
    else
      let r := step_insert_vote e db user_id candidate_id timestamp
      ⟨if r.1 = SQLITE_DONE then 0 else 1,
        if r.1 ≠ SQLITE_DONE then [Msg.vote_step_failed] else [],
        r.2⟩

/-- Largest value of a C `int` (32 bits). -/
@[reducible] def INT_MAX : Int := 2147483647

/-- Modelled from the spec: `sqlite3_column_int` on an integer column: the low
32 bits of the stored value, read as a signed C `int`. -/
def sqlite3_column_int (v : Int) : Int :=
  (v + 2147483648) % 4294967296 - 2147483648

/-- The listing loop of `main` (lines 173-184): for each row that
`SELECT id, name FROM candidates` yields, in scan order, the pair that line 181
prints: `int id = sqlite3_column_int(stmt, 0)` and the name; nothing when the
statement cannot be prepared or stepped. -/
def list_candidates (e : Engine) (db : Db) : List (Int × String) :=
  if sqlite3_prepare_v2 e Sql.list_candidates = SQLITE_OK then
    match e.step Sql.list_candidates with
    | some _ => []
    | none => db.candidates.map (fun r => (sqlite3_column_int r.id, r.name))
  else []

/-! ## The demo sequence of `main` (lines 157-200) -/

/-- What a run of the demo sequence leaves behind: the result of each of the
seven calls, the rows the listing loop read, everything printed, and the final
store. -/
structure Demo where
  user1 : Result
  user2 : Result
  cand_a : Result
  cand_b : Result
  cand_c : Result
  listing : List (Int × String)
  vote1 : Result
  vote2 : Result
  out : List Msg
  db : Db
deriving DecidableEq, Repr

/-- The body of `main` from line 157 on, run on a store whose tables exist.
`e i` is the engine during the i-th engine-using step (the four clean-up
statements, then the seven calls and the listing, in program order) and
`clk i` the clock during the i-th `vote`.  The return values of the clean-up
statements and of the first five calls are discarded by `main`; the record
keeps the latter for inspection. -/
def main_demo (e : Nat → Engine) (clk : Nat → Clock) (db : Db) : Demo :=
  let db := (sqlite3_exec (e 0) db Sql.delete_votes).2
  let db := (sqlite3_exec (e 1) db Sql.delete_users).2
  let db := (sqlite3_exec (e 2) db Sql.delete_candidates).2
  let db := (sqlite3_exec (e 3) db Sql.delete_candidates_seq).2
  let u1 := register_user (e 4) db (some "user1") (some "hash123")
  let u2 := register_user (e 5) u1.db (some "user2") (some "hash456")
  let a := add_candidate (e 6) u2.db (some "Candidate A")
  let b := add_candidate (e 7) a.db (some "Candidate B")
  let c := add_candidate (e 8) b.db (some "Candidate C")
  let rows := list_candidates (e 9) c.db
  let v1 := vote (e 10) (clk 0) c.db 1 1
  let v2 := vote (e 11) (clk 1) v1.db 2 999
  { user1 := u1, user2 := u2, cand_a := a, cand_b := b, cand_c := c, listing := rows,
    vote1 := v1, vote2 := v2,
    out := u1.out ++ u2.out ++ a.out ++ b.out ++ c.out
      ++ rows.map (fun r => Msg.candidate_row r.1 r.2)
      ++ v1.out ++ [if v1.rc = 0 then Msg.vote_registered else Msg.vote_error]
      ++ v2.out ++ [if v2.rc = 0 then Msg.vote_registered else Msg.vote_error],
    db := v2.db }

/-! ## Sequences of calls -/

/-- One call of an operation, with the engine (and clock) it meets. -/
inductive Call where
  | register_user (e : Engine) (username password_hash : Option String)
  | add_candidate (e : Engine) (name : Option String)
  | vote (e : Engine) (clk : Clock) (user_id candidate_id : Int)

/-- The engine a call meets. -/
def Call.engine : Call → Engine
  | Call.register_user e _ _ => e
  | Call.add_candidate e _ => e
  | Call.vote e _ _ _ => e

/-- Perform one call. -/
def Call.run : Call → Db → Result
  | Call.register_user e username password_hash, db =>
    VotingSystem.register_user e db username password_hash
  | Call.add_candidate e name, db => VotingSystem.add_candidate e db name
  | Call.vote e clk user_id candidate_id, db => VotingSystem.vote e clk db user_id candidate_id

/-- Perform the calls one after the other; the store at the end. -/
def run_calls (calls : List Call) (db : Db) : Db :=
  calls.foldl (fun d c => (c.run d).db) db

/-- Call `add_candidate` on each name in turn, on a sound engine. -/
def add_candidates (names : List String) (db : Db) : Db :=
  names.foldl (fun d n => (add_candidate Engine.ok d (some n)).db) db

/-- Number of Vote rows of a user. -/
def votes_of (db : Db) (user_id : Int) : Nat :=
  db.votes.countP (fun v => v.user_id == user_id)

/-! ## Sample values -/

/-- Local time 2026-01-02 03:04:05. -/
def sample_clock : Clock := ⟨⟨5, 4, 3, 2, 0, 126⟩, ""⟩

/-- The store of the demo just before its first vote: two users, three
candidates, no vote. -/
def db_registered : Db :=
  ⟨[⟨1, "user1", "hash123"⟩, ⟨2, "user2", "hash456"⟩],
   [⟨1, "Candidate A"⟩, ⟨2, "Candidate B"⟩, ⟨3, "Candidate C"⟩], [], 2, 3, 0⟩

/-- The store of the demo after its first vote: user 1 has voted for
candidate 1. -/
def db_voted : Db :=
  { db_registered with votes := [⟨1, 1, 1, "2026-01-02 03:04:05"⟩], seq_votes := 1 }

/-! ## Properties of stores -/

/-- Every user has at most one Vote row. -/
def one_vote_per_user (db : Db) : Prop := ∀ u, votes_of db u ≤ 1

/-- Every Vote row names an existing candidate. -/
def votes_name_candidates (db : Db) : Prop :=
  ∀ v ∈ db.votes, ∃ r ∈ db.candidates, r.id = v.candidate_id

/-- Every Vote row names an existing user. -/
def votes_name_users (db : Db) : Prop :=
  ∀ v ∈ db.votes, ∃ r ∈ db.users, r.id = v.user_id

/-- Candidate ids grow along the table and are positive. -/
def candidate_ids_sorted (db : Db) : Prop :=
  (db.candidates.map Candidate.id).Pairwise (fun a b => a < b) ∧
    ∀ i ∈ db.candidates.map Candidate.id, 0 < i

/-- A store with empty tables whose candidates counter stands at 2^32 - 1, as
after that many candidates were added and removed. -/
def db_high_counter : Db := ⟨[], [], [], 0, 4294967295, 0⟩

/-- No id in the candidates table nor the candidates counter exceeds `n`. -/
def candidate_ids_below (db : Db) (n : Int) : Prop :=
  db.seq_candidates ≤ n ∧ ∀ i ∈ db.candidates.map Candidate.id, i ≤ n

/-- Two candidates are added, then user 1 votes twice. -/
def calls_double_vote : List Call :=
  [Call.add_candidate Engine.ok (some "A"), Call.add_candidate Engine.ok (some "B"),
    Call.vote Engine.ok sample_clock 1 1, Call.vote Engine.ok sample_clock 1 2]

/-- One candidate is added, then user 7 votes although no user was ever
registered. -/
def calls_unregistered_voter : List Call :=
  [Call.add_candidate Engine.ok (some "A"), Call.vote Engine.ok sample_clock 7 1]

/-! ## Auxiliary facts -/

theorem foldl_max_ge (l : List Int) (a : Int) :
    a ≤ l.foldl max a ∧ ∀ i ∈ l, i ≤ l.foldl max a := by
  induction l generalizing a with
  | nil => simp
  | cons x xs ih =>
    simp only [List.foldl_cons, List.mem_cons, forall_eq_or_imp]
    have h := ih (max a x)
    exact ⟨le_trans (le_max_left a x) h.1, le_trans (le_max_right a x) h.1, h.2⟩

/-- The auto-assigned id is larger than every id in the table. -/
theorem new_rowid_gt (ids : List Int) (seq : Int) : ∀ i ∈ ids, i < new_rowid ids seq := by
  intro i hi
  cases ids with
  | nil => simp at hi
  | cons x xs =>
    have h := foldl_max_ge xs x
    have hle : i ≤ xs.foldl max x := by
      rcases List.mem_cons.1 hi with rfl | hmem
      · exact h.1
      · exact h.2 i hmem
    simp only [new_rowid]
    split_ifs <;> omega

/-- The first id auto-assigned in an empty table is positive. -/
theorem new_rowid_nil_pos (seq : Int) : 0 < new_rowid [] seq := by
  simp only [new_rowid]
  split_ifs <;> omega

theorem any_username_false (users : List User) (u : String)
    (h : ∀ r ∈ users, r.username ≠ u) : users.any (fun r => r.username == u) = false := by
  rw [List.any_eq_false]
  intro r hr
  simpa using h r hr

theorem any_user_id_false (votes : List Vote) (u : Int)
    (h : ∀ v ∈ votes, v.user_id ≠ u) : votes.any (fun v => v.user_id == u) = false := by
  rw [List.any_eq_false]
  intro v hv
  simpa using h v hv

theorem any_user_id_true (votes : List Vote) (u : Int)
    (h : ∃ v ∈ votes, v.user_id = u) : votes.any (fun v => v.user_id == u) = true := by
  rw [List.any_eq_true]
  obtain ⟨v, hv, hu⟩ := h
  exact ⟨v, hv, by simpa using hu⟩

theorem any_candidate_id_false (cands : List Candidate) (c : Int)
    (h : ∀ r ∈ cands, r.id ≠ c) : cands.any (fun r => r.id == c) = false := by
  rw [List.any_eq_false]
  intro r hr
  simpa using h r hr

theorem any_candidate_id_true (cands : List Candidate) (c : Int)
    (h : ∃ r ∈ cands, r.id = c) : cands.any (fun r => r.id == c) = true := by
  rw [List.any_eq_true]
  obtain ⟨r, hr, hc⟩ := h
  exact ⟨r, hr, by simpa using hc⟩

/-! ### The lookups on a sound engine -/

theorem check_user_exists_ok (db : Db) (u : String) :
    check_user_exists Engine.ok db (some u)
      = if db.users.any (fun r => r.username == u) then 1 else 0 := by
  unfold check_user_exists
  cases h : db.users.any (fun r => r.username == u) <;>
    simp [sqlite3_prepare_v2, Engine.ok, step_select, h]

theorem has_voted_ok (db : Db) (u : Int) :
    has_voted Engine.ok db u = if db.votes.any (fun v => v.user_id == u) then 1 else 0 := by
  unfold has_voted
  cases h : db.votes.any (fun v => v.user_id == u) <;> rfl

theorem candidate_exists_ok (db : Db) (c : Int) :
    candidate_exists Engine.ok db c
      = if db.candidates.any (fun r => r.id == c) then 1 else 0 := by
  unfold candidate_exists
  cases h : db.candidates.any (fun r => r.id == c) <;> rfl

/-- On a sound engine `vote` is decided by the two lookups, in this order. -/
theorem vote_ok (clk : Clock) (db : Db) (u c : Int) :
    vote Engine.ok clk db u c =
      if db.votes.any (fun v => v.user_id == u) then ⟨1, [Msg.already_voted], db⟩
      else if db.candidates.any (fun r => r.id == c) then
        ⟨0, [], { db with
          votes := db.votes ++ [⟨new_rowid (db.votes.map Vote.id) db.seq_votes, u, c,
            timestamp_array clk⟩],
          seq_votes := new_rowid (db.votes.map Vote.id) db.seq_votes }⟩
      else ⟨1, [Msg.candidate_not_found c], db⟩ := by
  unfold vote
  rw [has_voted_ok, candidate_exists_ok]
  cases h1 : db.votes.any (fun v => v.user_id == u) <;>
    cases h2 : db.candidates.any (fun r => r.id == c) <;> rfl

/-- On a sound engine `add_candidate` appends one row. -/
theorem add_candidate_ok (db : Db) (n : String) :
    add_candidate Engine.ok db (some n) =
      ⟨0, [Msg.candidate_added (some n)],
        { db with
          candidates := db.candidates ++
            [⟨new_rowid (db.candidates.map Candidate.id) db.seq_candidates, n⟩],
          seq_candidates := new_rowid (db.candidates.map Candidate.id) db.seq_candidates }⟩ := by
  rfl

/-- On a sound engine `register_user` is decided by the username lookup. -/
theorem register_user_ok (db : Db) (u h : String) :
    register_user Engine.ok db (some u) (some h) =
      if db.users.any (fun r => r.username == u) then ⟨1, [Msg.user_exists], db⟩
      else
        ⟨0, [], { db with
          users := db.users ++ [⟨new_rowid (db.users.map User.id) db.seq_users, u, h⟩],
          seq_users := new_rowid (db.users.map User.id) db.seq_users }⟩ := by
  unfold register_user
  rw [check_user_exists_ok]
  cases h1 : db.users.any (fun r => r.username == u)
  · simp [add_user, sqlite3_prepare_v2, Engine.ok, step_insert_user, h1]
  · simp

/-! ### The timestamp -/

theorem fmt_02_eq (n : Nat) (h : n < 100) :
    fmt_02 n = [Nat.digitChar (n / 10), Nat.digitChar (n % 10)] := by
  interval_cases n <;> rfl

theorem toDigits_four (k : Nat) (h1 : 1000 ≤ k) (h2 : k ≤ 9999) :
    Nat.toDigits 10 k = [Nat.digitChar (k / 1000), Nat.digitChar (k / 100 % 10),
      Nat.digitChar (k / 10 % 10), Nat.digitChar (k % 10)] := by
  obtain ⟨j, rfl⟩ : ∃ j, k = j + 4 := ⟨k - 4, by omega⟩
  have a1 : (j + 4) / 10 ≠ 0 := by omega
  have a2 : (j + 4) / 10 / 10 ≠ 0 := by omega
  have a3 : (j + 4) / 10 / 10 / 10 ≠ 0 := by omega
  have a4 : (j + 4) / 10 / 10 / 10 / 10 = 0 := by omega
  have b1 : (j + 4) / 10 / 10 / 10 % 10 = (j + 4) / 1000 := by omega
  have b2 : (j + 4) / 10 / 10 % 10 = (j + 4) / 100 % 10 := by omega
  simp [Nat.toDigits, Nat.toDigitsCore, a1, a2, a3, a4, b1, b2]

theorem fmt_Y_eq (y : Int) (k : Nat) (hk : y + 1900 = Int.ofNat k) (h1 : 1000 ≤ k)
    (h2 : k ≤ 9999) :
    fmt_Y y = [Nat.digitChar (k / 1000), Nat.digitChar (k / 100 % 10),
      Nat.digitChar (k / 10 % 10), Nat.digitChar (k % 10)] := by
  unfold fmt_Y
  rw [hk]
  exact toDigits_four k h1 h2

theorem digitChar_digit (a : Nat) (ha : a < 10) :
    (Nat.digitChar a).isDigit = true ∧ (Nat.digitChar a).toNat - 48 = a := by
  interval_cases a <;> exact ⟨rfl, rfl⟩

theorem read_num_two (a b : Nat) (ha : a < 10) (hb : b < 10) :
    read_num [Nat.digitChar a, Nat.digitChar b] = some (10 * a + b) := by
  simp [read_num, digitChar_digit a ha, digitChar_digit b hb]

theorem read_num_four (a b c d : Nat) (ha : a < 10) (hb : b < 10) (hc : c < 10)
    (hd : d < 10) :
    read_num [Nat.digitChar a, Nat.digitChar b, Nat.digitChar c, Nat.digitChar d]
      = some (10 * (10 * (10 * a + b) + c) + d) := by
  simp [read_num, digitChar_digit a ha, digitChar_digit b hb, digitChar_digit c hc,
    digitChar_digit d hd]

/-- For a valid local time `strftime` fills the 20-byte array with a text of
19 characters that reads back as that time. -/
theorem strftime_valid (tm : Tm) (h : tm.valid) :
    ∃ ts : String, strftime 20 tm = some ts ∧ ts.length = 19 ∧
      read_timestamp ts = some ((tm.tm_year + 1900).toNat, tm.tm_mon + 1, tm.tm_mday,
        tm.tm_hour, tm.tm_min, tm.tm_sec) := by
  obtain ⟨hy1, hy2, hmon, -, hday, hhour, hmin, hsec⟩ := h
  obtain ⟨k, hk⟩ : ∃ k : Nat, tm.tm_year + 1900 = Int.ofNat k :=
    ⟨(tm.tm_year + 1900).toNat, by simp; omega⟩
  have hk1 : 1000 ≤ k := by
    have : (1000 : Int) ≤ (k : Int) := by rw [hk] at hy1; exact hy1
    exact_mod_cast this
  have hk2 : k ≤ 9999 := by
    have : (k : Int) ≤ 9999 := by rw [hk] at hy2; exact hy2
    exact_mod_cast this
  have e : strftime 20 tm = some (String.mk
      [Nat.digitChar (k / 1000), Nat.digitChar (k / 100 % 10), Nat.digitChar (k / 10 % 10),
        Nat.digitChar (k % 10), '-',
        Nat.digitChar ((tm.tm_mon + 1) / 10), Nat.digitChar ((tm.tm_mon + 1) % 10), '-',
        Nat.digitChar (tm.tm_mday / 10), Nat.digitChar (tm.tm_mday % 10), ' ',
        Nat.digitChar (tm.tm_hour / 10), Nat.digitChar (tm.tm_hour % 10), ':',
        Nat.digitChar (tm.tm_min / 10), Nat.digitChar (tm.tm_min % 10), ':',
        Nat.digitChar (tm.tm_sec / 10), Nat.digitChar (tm.tm_sec % 10)]) := by
    unfold strftime
    rw [fmt_Y_eq tm.tm_year k hk hk1 hk2, fmt_02_eq (tm.tm_mon + 1) (by omega),
      fmt_02_eq tm.tm_mday (by omega), fmt_02_eq tm.tm_hour (by omega),
      fmt_02_eq tm.tm_min (by omega), fmt_02_eq tm.tm_sec (by omega)]
    simp
  refine ⟨_, e, by simp [String.length], ?_⟩
  have r1 := read_num_four (k / 1000) (k / 100 % 10) (k / 10 % 10) (k % 10)
    (by omega) (by omega) (by omega) (by omega)
  have r2 := read_num_two ((tm.tm_mon + 1) / 10) ((tm.tm_mon + 1) % 10) (by omega) (by omega)
  have r3 := read_num_two (tm.tm_mday / 10) (tm.tm_mday % 10) (by omega) (by omega)
  have r4 := read_num_two (tm.tm_hour / 10) (tm.tm_hour % 10) (by omega) (by omega)
  have r5 := read_num_two (tm.tm_min / 10) (tm.tm_min % 10) (by omega) (by omega)
  have r6 := read_num_two (tm.tm_sec / 10) (tm.tm_sec % 10) (by omega) (by omega)
  have hk3 : (tm.tm_year + 1900).toNat = k := by rw [hk]; rfl
  simp only [read_timestamp, r1, r2, r3, r4, r5, r6, and_self, if_true, hk3]
  refine congrArg some ?_
  refine Prod.ext ?_ (Prod.ext ?_ (Prod.ext ?_ (Prod.ext ?_ (Prod.ext ?_ ?_)))) <;>
    simp only <;> omega

/-! ### Any engine: which tables a call can touch -/

/-- `register_user` touches neither candidates nor votes, on any engine. -/
theorem register_user_tables (e : Engine) (db : Db) (u h : Option String) :
    (register_user e db u h).db.candidates = db.candidates ∧
      (register_user e db u h).db.votes = db.votes := by
  unfold register_user add_user step_insert_user
  split_ifs <;> first
    | exact ⟨rfl, rfl⟩
    | (cases e.step Sql.insert_user <;> first
        | exact ⟨rfl, rfl⟩
        | (cases u <;> cases h <;> first
            | exact ⟨rfl, rfl⟩
            | (simp only []; split_ifs <;> exact ⟨rfl, rfl⟩)))

/-- `add_candidate` leaves the votes and keeps every candidate row, on any engine. -/
theorem add_candidate_tables (e : Engine) (db : Db) (n : Option String) :
    (add_candidate e db n).db.votes = db.votes ∧
      ∀ r ∈ db.candidates, r ∈ (add_candidate e db n).db.candidates := by
  by_cases hp : sqlite3_prepare_v2 e Sql.insert_candidate = SQLITE_OK
  · cases hs : e.step Sql.insert_candidate
    · cases n
      · simp [add_candidate, step_insert_candidate, hp, hs]
      · simp only [add_candidate, step_insert_candidate, hp, hs]
        exact ⟨rfl, fun r hr => List.mem_append_left _ hr⟩
    · simp [add_candidate, step_insert_candidate, hp, hs]
  · simp [add_candidate, hp]

/-- Either `vote` leaves the store as it was, or both lookups let it pass and
it appends one Vote row for that user and candidate. -/
theorem vote_db (e : Engine) (clk : Clock) (db : Db) (u c : Int) :
    (vote e clk db u c).db = db ∨
      (has_voted e db u = 0 ∧ candidate_exists e db c ≠ 0 ∧
        ∃ id ts, (vote e clk db u c).db =
          { db with votes := db.votes ++ [⟨id, u, c, ts⟩], seq_votes := id }) := by
  by_cases h1 : has_voted e db u = 0
  · by_cases h2 : candidate_exists e db c = 0
    · left; simp [vote, h1, h2]
    · by_cases h3 : sqlite3_prepare_v2 e Sql.insert_vote = SQLITE_OK
      · cases h4 : e.step Sql.insert_vote
        · right
          refine ⟨h1, h2, new_rowid (db.votes.map Vote.id) db.seq_votes,
            timestamp_array clk, ?_⟩
          simp [vote, h1, h2, h3, step_insert_vote, h4]
        · left; simp [vote, h1, h2, h3, step_insert_vote, h4]
      · left; simp [vote, h1, h2, h3]
  · left; simp [vote, h1]

theorem has_voted_zero (e : Engine) (db : Db) (u : Int)
    (hs : e.step Sql.select_vote = none) (h : has_voted e db u = 0) :
    ∀ v ∈ db.votes, v.user_id ≠ u := by
  have hf : db.votes.any (fun v => v.user_id == u) = false := by
    cases hany : db.votes.any (fun v => v.user_id == u)
    · rfl
    · exfalso
      cases hp : e.prepare Sql.select_vote with
      | none => simp [has_voted, sqlite3_prepare_v2, step_select, hp, hs, hany] at h
      | some err => simp [has_voted, sqlite3_prepare_v2, hp, err.is_error.1] at h
  intro v hv
  have := (List.any_eq_false.1 hf) v hv
  simpa using this

theorem candidate_exists_nonzero (e : Engine) (db : Db) (c : Int)
    (hp : e.prepare Sql.select_candidate = none) (hs : e.step Sql.select_candidate = none)
    (h : candidate_exists e db c ≠ 0) : ∃ r ∈ db.candidates, r.id = c := by
  have ht : db.candidates.any (fun r => r.id == c) = true := by
    cases hany : db.candidates.any (fun r => r.id == c)
    · exfalso
      apply h
      simp [candidate_exists, sqlite3_prepare_v2, step_select, hp, hs, hany]
    · rfl
  obtain ⟨r, hr, hc⟩ := List.any_eq_true.1 ht
  exact ⟨r, hr, by simpa using hc⟩


theorem votes_of_append (db : Db) (id u c : Int) (ts : String) (w : Int)
    (hnone : ∀ v ∈ db.votes, v.user_id ≠ u) (h : votes_of db w ≤ 1) :
    votes_of { db with votes := db.votes ++ [⟨id, u, c, ts⟩], seq_votes := id } w ≤ 1 := by
  unfold votes_of at *
  simp only [List.countP_append, List.countP_cons, List.countP_nil]
  by_cases hw : u = w
  · subst hw
    have h0 : List.countP (fun v => v.user_id == u) db.votes = 0 := by
      rw [List.countP_eq_zero]
      intro v hv
      simpa using hnone v hv
    simp [h0]
  · simp [hw]
    exact h

theorem call_keeps_one_vote (c : Call) (db : Db)
    (hs : c.engine.step Sql.select_vote = none) (h : one_vote_per_user db) :
    one_vote_per_user (c.run db).db := by
  intro w
  cases c with
  | register_user e u p =>
    have := (register_user_tables e db u p).2
    simp only [Call.run, votes_of, this]
    exact h w
  | add_candidate e n =>
    have := (add_candidate_tables e db n).1
    simp only [Call.run, votes_of, this]
    exact h w
  | vote e clk u c =>
    rcases vote_db e clk db u c with hsame | ⟨h1, -, id, ts, hnew⟩
    · simp only [Call.run, hsame]
      exact h w
    · simp only [Call.run, hnew]
      exact votes_of_append db id u c ts w (has_voted_zero e db u hs h1) (h w)

theorem run_calls_keeps_one_vote (calls : List Call) (db : Db)
    (hs : ∀ c ∈ calls, c.engine.step Sql.select_vote = none) (h : one_vote_per_user db) :
    one_vote_per_user (run_calls calls db) := by
  induction calls generalizing db with
  | nil => exact h
  | cons c cs ih =>
    simp only [run_calls, List.foldl_cons]
    exact ih (c.run db).db (fun d hd => hs d (List.mem_cons_of_mem c hd))
      (call_keeps_one_vote c db (hs c (List.mem_cons_self c cs)) h)

theorem call_keeps_candidates (c : Call) (db : Db)
    (hp : c.engine.prepare Sql.select_candidate = none)
    (hs : c.engine.step Sql.select_candidate = none) (h : votes_name_candidates db) :
    votes_name_candidates (c.run db).db := by
  cases c with
  | register_user e u p =>
    have ht := register_user_tables e db u p
    intro v hv
    simp only [Call.run, ht.2] at hv
    simp only [Call.run, ht.1]
    exact h v hv
  | add_candidate e n =>
    have ht := add_candidate_tables e db n
    intro v hv
    simp only [Call.run, ht.1] at hv
    obtain ⟨r, hr, hid⟩ := h v hv
    exact ⟨r, ht.2 r hr, hid⟩
  | vote e clk u c =>
    rcases vote_db e clk db u c with hsame | ⟨-, h2, id, ts, hnew⟩
    · simp only [Call.run, hsame]
      exact h
    · intro v hv
      simp only [Call.run, hnew, List.mem_append, List.mem_singleton] at hv ⊢
      rcases hv with hv | rfl
      · exact h v hv
      · exact candidate_exists_nonzero e db c hp hs h2

theorem run_calls_keeps_candidates (calls : List Call) (db : Db)
    (hq : ∀ c ∈ calls, c.engine.prepare Sql.select_candidate = none ∧
      c.engine.step Sql.select_candidate = none) (h : votes_name_candidates db) :
    votes_name_candidates (run_calls calls db) := by
  induction calls generalizing db with
  | nil => exact h
  | cons c cs ih =>
    simp only [run_calls, List.foldl_cons]
    exact ih (c.run db).db (fun d hd => hq d (List.mem_cons_of_mem c hd))
      (call_keeps_candidates c db (hq c (List.mem_cons_self c cs)).1
        (hq c (List.mem_cons_self c cs)).2 h)


/-! ### `vote` never reads the users table -/

theorem has_voted_users (e : Engine) (db : Db) (users2 : List User) (u : Int) :
    has_voted e { db with users := users2 } u = has_voted e db u := rfl

theorem candidate_exists_users (e : Engine) (db : Db) (users2 : List User) (c : Int) :
    candidate_exists e { db with users := users2 } c = candidate_exists e db c := rfl

theorem step_insert_vote_users (e : Engine) (db : Db) (users2 : List User) (u c : Int)
    (ts : String) :
    (step_insert_vote e { db with users := users2 } u c ts).1
        = (step_insert_vote e db u c ts).1 ∧
      (step_insert_vote e { db with users := users2 } u c ts).2.votes
        = (step_insert_vote e db u c ts).2.votes := by
  unfold step_insert_vote
  cases e.step Sql.insert_vote <;> exact ⟨rfl, rfl⟩

theorem vote_ignores_users_table (e : Engine) (clk : Clock) (db : Db) (users2 : List User)
    (u c : Int) :
    (vote e clk { db with users := users2 } u c).rc = (vote e clk db u c).rc ∧
      (vote e clk { db with users := users2 } u c).out = (vote e clk db u c).out ∧
      (vote e clk { db with users := users2 } u c).db.votes = (vote e clk db u c).db.votes := by
  have h := step_insert_vote_users e db users2 u c
  by_cases h1 : has_voted e db u = 0 <;> by_cases h2 : candidate_exists e db c = 0 <;>
    by_cases h3 : sqlite3_prepare_v2 e Sql.insert_vote = SQLITE_OK <;>
    simp [vote, has_voted_users, candidate_exists_users, h1, h2, h3, h]


/-! ### Candidate ids -/

theorem add_candidate_sorted (db : Db) (n : String) (h : candidate_ids_sorted db) :
    candidate_ids_sorted (add_candidate Engine.ok db (some n)).db := by
  rw [add_candidate_ok]
  obtain ⟨hp, hpos⟩ := h
  have hgt := new_rowid_gt (db.candidates.map Candidate.id) db.seq_candidates
  refine ⟨?_, ?_⟩
  · simp only [List.map_append, List.map_cons, List.map_nil]
    rw [List.pairwise_append]
    refine ⟨hp, List.pairwise_singleton _ _, ?_⟩
    intro a ha b hb
    rw [List.mem_singleton] at hb
    subst hb
    exact hgt a ha
  · intro i hi
    simp only [List.map_append, List.map_cons, List.map_nil, List.mem_append,
      List.mem_singleton] at hi
    rcases hi with hi | rfl
    · exact hpos i hi
    · cases hc : db.candidates with
      | nil => simp only [List.map_nil]; exact new_rowid_nil_pos _
      | cons r rs =>
        have hr : r.id ∈ db.candidates.map Candidate.id := by simp [hc]
        have h1 := hpos r.id hr
        have h2 := hgt r.id hr
        rw [hc] at h2
        omega

theorem add_candidates_cons (n : String) (ns : List String) (db : Db) :
    add_candidates (n :: ns) db = add_candidates ns (add_candidate Engine.ok db (some n)).db :=
  rfl

theorem add_candidates_sorted (names : List String) (db : Db) (h : candidate_ids_sorted db) :
    candidate_ids_sorted (add_candidates names db) := by
  induction names generalizing db with
  | nil => exact h
  | cons n ns ih =>
    rw [add_candidates_cons]
    exact ih _ (add_candidate_sorted db n h)

theorem add_candidates_names (names : List String) (db : Db) :
    (add_candidates names db).candidates.map Candidate.name
      = db.candidates.map Candidate.name ++ names := by
  induction names generalizing db with
  | nil => simp [add_candidates]
  | cons n ns ih =>
    rw [add_candidates_cons, ih, add_candidate_ok]
    simp

theorem list_candidates_ok (db : Db) :
    list_candidates Engine.ok db
      = db.candidates.map (fun r => (sqlite3_column_int r.id, r.name)) := rfl

/-- An id that fits a C `int` is read unchanged. -/
theorem sqlite3_column_int_fits (v : Int) (h0 : 0 < v) (h1 : v ≤ INT_MAX) :
    sqlite3_column_int v = v := by
  unfold sqlite3_column_int
  simp only [INT_MAX] at h1
  omega

theorem foldl_max_le (l : List Int) (a n : Int) (ha : a ≤ n) (hl : ∀ i ∈ l, i ≤ n) :
    l.foldl max a ≤ n := by
  induction l generalizing a with
  | nil => exact ha
  | cons x xs ih =>
    simp only [List.foldl_cons]
    exact ih (max a x) (max_le ha (hl x (List.mem_cons_self x xs)))
      (fun i hi => hl i (List.mem_cons_of_mem x hi))

/-- The auto-assigned id exceeds the ids and the counter by at most one. -/
theorem new_rowid_le (ids : List Int) (seq n : Int) (h0 : 0 ≤ n) (hseq : seq ≤ n)
    (hids : ∀ i ∈ ids, i ≤ n) : new_rowid ids seq ≤ n + 1 := by
  cases ids with
  | nil =>
    simp only [new_rowid]
    split_ifs <;> omega
  | cons x xs =>
    have h := foldl_max_le xs x n (hids x (List.mem_cons_self x xs))
      (fun i hi => hids i (List.mem_cons_of_mem x hi))
    simp only [new_rowid]
    split_ifs <;> omega

theorem add_candidate_below (db : Db) (name : String) (n : Int) (h0 : 0 ≤ n)
    (h : candidate_ids_below db n) :
    candidate_ids_below (add_candidate Engine.ok db (some name)).db (n + 1) := by
  rw [add_candidate_ok]
  have hnew := new_rowid_le (db.candidates.map Candidate.id) db.seq_candidates n h0 h.1 h.2
  refine ⟨hnew, ?_⟩
  intro i hi
  simp only [List.map_append, List.map_cons, List.map_nil, List.mem_append,
    List.mem_singleton] at hi
  rcases hi with hi | rfl
  · have := h.2 i hi
    omega
  · exact hnew

theorem add_candidates_below (names : List String) (db : Db) (n : Int) (h0 : 0 ≤ n)
    (h : candidate_ids_below db n) :
    candidate_ids_below (add_candidates names db) (n + names.length) := by
  induction names generalizing db n with
  | nil => simpa [add_candidates] using h
  | cons x xs ih =>
    rw [add_candidates_cons]
    have h1 := ih (add_candidate Engine.ok db (some x)).db (n + 1) (by omega)
      (add_candidate_below db x n h0 h)
    have e : n + 1 + (xs.length : Int) = n + ((x :: xs).length : Int) := by
      simp only [List.length_cons, Nat.cast_add, Nat.cast_one]
      omega
    rw [e] at h1
    exact h1


theorem sqlite3_exec_ok (db : Db) :
    (sqlite3_exec Engine.ok db Sql.delete_votes).2 = { db with votes := [] } ∧
    (sqlite3_exec Engine.ok db Sql.delete_users).2 = { db with users := [] } ∧
    (sqlite3_exec Engine.ok db Sql.delete_candidates).2 = { db with candidates := [] } ∧
    (sqlite3_exec Engine.ok db Sql.delete_candidates_seq).2 = { db with seq_candidates := 0 } :=
  ⟨rfl, rfl, rfl, rfl⟩


/-! ## Registration -/

/-- C1: on a sound engine, registering a username that no User row has returns
0 and appends exactly one User row with that username and hash (the user count
grows by 1, the other tables stay); registering the same username again right
after, with any hash, returns 1 with the already-exists message and leaves the
store as it was. -/
theorem register_user_fresh_then_duplicate (db : Db) (username hash : String)
    (hash2 : Option String) (hfresh : ∀ r ∈ db.users, r.username ≠ username) :
    register_user Engine.ok db (some username) (some hash) =
        ⟨0, [], { db with
          users := db.users ++
            [⟨new_rowid (db.users.map User.id) db.seq_users, username, hash⟩],
          seq_users := new_rowid (db.users.map User.id) db.seq_users }⟩ ∧
      (register_user Engine.ok db (some username) (some hash)).db.users.length
        = db.users.length + 1 ∧
      (register_user Engine.ok (register_user Engine.ok db (some username) (some hash)).db
          (some username) hash2).rc ≠ 0 ∧
      register_user Engine.ok (register_user Engine.ok db (some username) (some hash)).db
          (some username) hash2 =
        ⟨1, [Msg.user_exists], (register_user Engine.ok db (some username) (some hash)).db⟩ := by
  have h1 : register_user Engine.ok db (some username) (some hash) =
      ⟨0, [], { db with
        users := db.users ++
          [⟨new_rowid (db.users.map User.id) db.seq_users, username, hash⟩],
        seq_users := new_rowid (db.users.map User.id) db.seq_users }⟩ := by
    rw [register_user_ok, any_username_false db.users username hfresh]
    rfl
  have h2 : register_user Engine.ok
      (register_user Engine.ok db (some username) (some hash)).db (some username) hash2 =
      ⟨1, [Msg.user_exists], (register_user Engine.ok db (some username) (some hash)).db⟩ := by
    rw [h1]
    simp [register_user, check_user_exists, sqlite3_prepare_v2, Engine.ok, step_select]
  refine ⟨h1, ?_, ?_, h2⟩
  · rw [h1]; simp
  · rw [h2]; exact one_ne_zero

/-- Witness of C1: "user1" registered in the empty store, then once more. -/
theorem register_user_fresh_then_duplicate_witness :
    (∀ r ∈ Db.empty.users, r.username ≠ "user1") ∧
      register_user Engine.ok Db.empty (some "user1") (some "hash123") =
        ⟨0, [], ⟨[⟨1, "user1", "hash123"⟩], [], [], 1, 0, 0⟩⟩ ∧
      register_user Engine.ok ⟨[⟨1, "user1", "hash123"⟩], [], [], 1, 0, 0⟩
          (some "user1") (some "other") =
        ⟨1, [Msg.user_exists], ⟨[⟨1, "user1", "hash123"⟩], [], [], 1, 0, 0⟩⟩ := by
  have hfresh : ∀ r ∈ Db.empty.users, r.username ≠ "user1" := by decide
  have h := register_user_fresh_then_duplicate Db.empty "user1" "hash123" (some "other") hfresh
  have e : register_user Engine.ok Db.empty (some "user1") (some "hash123") =
      ⟨0, [], ⟨[⟨1, "user1", "hash123"⟩], [], [], 1, 0, 0⟩⟩ := h.1
  refine ⟨hfresh, e, ?_⟩
  have h4 := h.2.2.2
  rw [e] at h4
  exact h4

/-! ## Voting -/

/-- C2: on a sound engine, when some Vote row has user_id u, `vote u c`
returns 1 with the already-voted message for every c, whether or not c is a
candidate, and the store (so the votes table and the number of votes of u) is
unchanged. -/
theorem vote_again_fails (clk : Clock) (db : Db) (u c : Int)
    (hvoted : ∃ v ∈ db.votes, v.user_id = u) :
    vote Engine.ok clk db u c = ⟨1, [Msg.already_voted], db⟩ ∧
      (vote Engine.ok clk db u c).rc ≠ 0 ∧
      (vote Engine.ok clk db u c).db.votes = db.votes ∧
      votes_of (vote Engine.ok clk db u c).db u = votes_of db u := by
  have h : vote Engine.ok clk db u c = ⟨1, [Msg.already_voted], db⟩ := by
    rw [vote_ok, any_user_id_true db.votes u hvoted]
    rfl
  rw [h]
  exact ⟨rfl, one_ne_zero, rfl, rfl⟩

/-- Witness of C2: user 1 has voted; a vote for candidate 2 and a vote for the
unknown candidate 999 are both refused, and user 1 keeps exactly one vote. -/
theorem vote_again_fails_witness :
    (∃ v ∈ db_voted.votes, v.user_id = 1) ∧ votes_of db_voted 1 = 1 ∧
      vote Engine.ok sample_clock db_voted 1 2 = ⟨1, [Msg.already_voted], db_voted⟩ ∧
      votes_of (vote Engine.ok sample_clock db_voted 1 999).db 1 = 1 := by
  have hv : ∃ v ∈ db_voted.votes, v.user_id = 1 := by decide
  refine ⟨hv, by decide, (vote_again_fails sample_clock db_voted 1 2 hv).1, ?_⟩
  rw [(vote_again_fails sample_clock db_voted 1 999 hv).2.2.2]
  decide

/-- C3, as stated, fails: candidate 999 does not exist, yet `vote 1 999` on a
store where user 1 has voted ends with the already-voted outcome, not with
candidate-not-found. -/
theorem vote_unknown_candidate_counterexample :
    (∀ r ∈ db_voted.candidates, r.id ≠ 999) ∧
      (vote Engine.ok sample_clock db_voted 1 999).out = [Msg.already_voted] ∧
      (vote Engine.ok sample_clock db_voted 1 999).out ≠ [Msg.candidate_not_found 999] := by
  decide

/-- C3, amended: on a sound engine, when candidate_id is the id of no
Candidate row, `vote` returns 1 and leaves the store unchanged; the outcome is
candidate-not-found when user_id has no Vote row, and already-voted when it
has one. -/
theorem vote_unknown_candidate (clk : Clock) (db : Db) (u c : Int)
    (hc : ∀ r ∈ db.candidates, r.id ≠ c) :
    (vote Engine.ok clk db u c).rc = 1 ∧ (vote Engine.ok clk db u c).db = db ∧
      ((∀ v ∈ db.votes, v.user_id ≠ u) →
        (vote Engine.ok clk db u c).out = [Msg.candidate_not_found c]) ∧
      ((∃ v ∈ db.votes, v.user_id = u) →
        (vote Engine.ok clk db u c).out = [Msg.already_voted]) := by
  rw [vote_ok, any_candidate_id_false db.candidates c hc]
  refine ⟨?_, ?_, ?_, ?_⟩
  · cases db.votes.any (fun v => v.user_id == u) <;> rfl
  · cases db.votes.any (fun v => v.user_id == u) <;> rfl
  · intro h
    rw [any_user_id_false db.votes u h]
    rfl
  · intro h
    rw [any_user_id_true db.votes u h]
    rfl

/-- Witness of C3 amended: user 2 has not voted and candidate 999 does not
exist. -/
theorem vote_unknown_candidate_witness :
    (∀ r ∈ db_voted.candidates, r.id ≠ 999) ∧ (∀ v ∈ db_voted.votes, v.user_id ≠ 2) ∧
      (vote Engine.ok sample_clock db_voted 2 999).rc = 1 ∧
      (vote Engine.ok sample_clock db_voted 2 999).db = db_voted ∧
      (vote Engine.ok sample_clock db_voted 2 999).out = [Msg.candidate_not_found 999] := by
  have hc : ∀ r ∈ db_voted.candidates, r.id ≠ 999 := by decide
  have hv : ∀ v ∈ db_voted.votes, v.user_id ≠ 2 := by decide
  have h := vote_unknown_candidate sample_clock db_voted 2 999 hc
  exact ⟨hc, hv, h.1, h.2.1, h.2.2.1 hv⟩

/-- C4: on a sound engine and with a valid local time, when user u exists and
has no Vote row and candidate c exists, `vote u c` returns 0 and the store
afterwards is the old one with exactly one more Vote row, appended, whose
user_id is u, whose candidate_id is c and whose timestamp is the 19-character
text `YYYY-MM-DD HH:MM:SS` of that local time; users and candidates are
unchanged. -/
theorem vote_valid_inserts_one_row (clk : Clock) (db : Db) (u c : Int)
    (hclk : clk.tm.valid)
    (huser : ∃ r ∈ db.users, r.id = u)
    (hnovote : ∀ v ∈ db.votes, v.user_id ≠ u)
    (hcand : ∃ r ∈ db.candidates, r.id = c) :
    ∃ ts : String,
      strftime 20 clk.tm = some ts ∧ ts.length = 19 ∧
      read_timestamp ts = some ((clk.tm.tm_year + 1900).toNat, clk.tm.tm_mon + 1,
        clk.tm.tm_mday, clk.tm.tm_hour, clk.tm.tm_min, clk.tm.tm_sec) ∧
      vote Engine.ok clk db u c =
        ⟨0, [], { db with
          votes := db.votes ++ [⟨new_rowid (db.votes.map Vote.id) db.seq_votes, u, c, ts⟩],
          seq_votes := new_rowid (db.votes.map Vote.id) db.seq_votes }⟩ ∧
      (vote Engine.ok clk db u c).db.votes.length = db.votes.length + 1 ∧
      (vote Engine.ok clk db u c).db.users = db.users ∧
      (vote Engine.ok clk db u c).db.candidates = db.candidates := by
  obtain ⟨r, -, -⟩ := huser
  obtain ⟨ts, hts, hlen, hread⟩ := strftime_valid clk.tm hclk
  have h : vote Engine.ok clk db u c =
      ⟨0, [], { db with
        votes := db.votes ++ [⟨new_rowid (db.votes.map Vote.id) db.seq_votes, u, c, ts⟩],
        seq_votes := new_rowid (db.votes.map Vote.id) db.seq_votes }⟩ := by
    rw [vote_ok, any_user_id_false db.votes u hnovote,
      any_candidate_id_true db.candidates c hcand]
    simp [timestamp_array, hts]
  refine ⟨ts, hts, hlen, hread, h, ?_, ?_, ?_⟩
  · simp [h]
  · simp [h]
  · simp [h]

/-- Witness of C4: the first vote of the demo, cast at 2026-01-02 03:04:05. -/
theorem vote_valid_inserts_one_row_witness :
    sample_clock.tm.valid ∧ (∃ r ∈ db_registered.users, r.id = 1) ∧
      (∀ v ∈ db_registered.votes, v.user_id ≠ 1) ∧
      (∃ r ∈ db_registered.candidates, r.id = 1) ∧
      vote Engine.ok sample_clock db_registered 1 1 = ⟨0, [], db_voted⟩ ∧
      read_timestamp "2026-01-02 03:04:05" = some (2026, 1, 2, 3, 4, 5) := by
  have h1 : sample_clock.tm.valid := by decide
  have h2 : ∃ r ∈ db_registered.users, r.id = 1 := by decide
  have h3 : ∀ v ∈ db_registered.votes, v.user_id ≠ 1 := by decide
  have h4 : ∃ r ∈ db_registered.candidates, r.id = 1 := by decide
  obtain ⟨ts, hts, -, hread, hvote, -⟩ :=
    vote_valid_inserts_one_row sample_clock db_registered 1 1 h1 h2 h3 h4
  have e : strftime 20 sample_clock.tm = some "2026-01-02 03:04:05" := by decide
  have hts2 : ts = "2026-01-02 03:04:05" := Option.some.inj (hts.symm.trans e)
  subst hts2
  exact ⟨h1, h2, h3, h4, hvote, hread⟩

/-! ## Candidates -/

/-- C9: on a sound engine `add_candidate` with a non-null name always returns
0 and appends exactly one Candidate row with that name, whatever names the
table already holds; the new id differs from every id already in the table,
and the existing candidate rows, the users and the votes are unchanged. -/
theorem add_candidate_unconditional (db : Db) (name : String) :
    add_candidate Engine.ok db (some name) =
        ⟨0, [Msg.candidate_added (some name)],
          { db with
            candidates := db.candidates ++
              [⟨new_rowid (db.candidates.map Candidate.id) db.seq_candidates, name⟩],
            seq_candidates := new_rowid (db.candidates.map Candidate.id) db.seq_candidates }⟩ ∧
      (∀ r ∈ db.candidates,
        r.id ≠ new_rowid (db.candidates.map Candidate.id) db.seq_candidates) ∧
      (add_candidate Engine.ok db (some name)).db.candidates.length
        = db.candidates.length + 1 ∧
      (add_candidate Engine.ok db (some name)).db.users = db.users ∧
      (add_candidate Engine.ok db (some name)).db.votes = db.votes := by
  refine ⟨add_candidate_ok db name, ?_, ?_, rfl, rfl⟩
  · intro r hr
    exact ne_of_lt (new_rowid_gt _ _ r.id (List.mem_map_of_mem Candidate.id hr))
  · rw [add_candidate_ok]; simp

/-- Witness of C9: a second "Candidate A" is added next to the first one. -/
theorem add_candidate_unconditional_witness :
    (∃ r ∈ db_registered.candidates, r.name = "Candidate A") ∧
      add_candidate Engine.ok db_registered (some "Candidate A") =
        ⟨0, [Msg.candidate_added (some "Candidate A")],
          { db_registered with
            candidates := db_registered.candidates ++ [⟨4, "Candidate A"⟩],
            seq_candidates := 4 }⟩ ∧
      (∀ r ∈ db_registered.candidates, r.id ≠ 4) := by
  have h := add_candidate_unconditional db_registered "Candidate A"
  have e : new_rowid (db_registered.candidates.map Candidate.id) db_registered.seq_candidates
      = 4 := by decide
  rw [e] at h
  exact ⟨by decide, h.1, h.2.1⟩

/-- C7 as stated fails: the candidates table is empty and its counter stands
at 2^32 - 1; "A" and "B" are added without any failure and are stored under
the ids 2^32 and 2^32 + 1, which the listing reads into a C `int` as 0 and 1:
the listed ids are not all positive. -/
theorem list_after_adding_counterexample :
    db_high_counter.candidates = [] ∧
      (add_candidate Engine.ok db_high_counter (some "A")).rc = 0 ∧
      (add_candidates ["A", "B"] db_high_counter).candidates
        = [⟨4294967296, "A"⟩, ⟨4294967297, "B"⟩] ∧
      list_candidates Engine.ok (add_candidates ["A", "B"] db_high_counter)
        = [(0, "A"), (1, "B")] ∧
      ¬ (∀ id ∈ (list_candidates Engine.ok (add_candidates ["A", "B"] db_high_counter)).map
        Prod.fst, 0 < id) := by
  decide

/-- C7, amended: starting from a store whose candidates table is empty, after
`add_candidate` has been called on each of the names n1..nk in turn (sound
engine), the listing yields exactly k rows whose names are n1..nk in that
order (so each name as often as it was added), for "A", "B", "C" exactly those
three; the stored ids are strictly increasing and positive, and each listed id
is the stored id read as a 32-bit C `int`.  When the ids assigned fit a C
`int`, that is when max(counter, 0) + k ≤ 2147483647, the listed ids are the
stored ones, pairwise distinct and positive. -/
theorem list_after_adding (db : Db) (names : List String) (hempty : db.candidates = []) :
    (list_candidates Engine.ok (add_candidates names db)).map Prod.snd = names ∧
      (list_candidates Engine.ok (add_candidates names db)).length = names.length ∧
      (list_candidates Engine.ok (add_candidates ["A", "B", "C"] db)).map Prod.snd
        = ["A", "B", "C"] ∧
      (list_candidates Engine.ok (add_candidates names db)).map Prod.fst
        = ((add_candidates names db).candidates.map Candidate.id).map sqlite3_column_int ∧
      ((add_candidates names db).candidates.map Candidate.id).Pairwise (fun a b => a < b) ∧
      (∀ id ∈ (add_candidates names db).candidates.map Candidate.id, 0 < id) ∧
      (max db.seq_candidates 0 + (names.length : Int) ≤ INT_MAX →
        (list_candidates Engine.ok (add_candidates names db)).map Prod.fst
          = (add_candidates names db).candidates.map Candidate.id ∧
        ((list_candidates Engine.ok (add_candidates names db)).map Prod.fst).Nodup ∧
        ∀ id ∈ (list_candidates Engine.ok (add_candidates names db)).map Prod.fst,
          0 < id) := by
  have hnames : ∀ ns : List String,
      (list_candidates Engine.ok (add_candidates ns db)).map Prod.snd = ns := by
    intro ns
    have := add_candidates_names ns db
    rw [hempty] at this
    rw [list_candidates_ok, List.map_map]
    simpa using this
  have hids : (list_candidates Engine.ok (add_candidates names db)).map Prod.fst
      = ((add_candidates names db).candidates.map Candidate.id).map sqlite3_column_int := by
    rw [list_candidates_ok, List.map_map, List.map_map]
    rfl
  have hsorted : candidate_ids_sorted (add_candidates names db) :=
    add_candidates_sorted names db (by simp [candidate_ids_sorted, hempty])
  refine ⟨hnames names, ?_, hnames _, hids, hsorted.1, hsorted.2, ?_⟩
  · have := congrArg List.length (hnames names)
    simpa using this
  · intro hfit
    have hbelow := add_candidates_below names db (max db.seq_candidates 0) (le_max_right _ _)
      ⟨le_max_left _ _, by simp [hempty]⟩
    have hread : (list_candidates Engine.ok (add_candidates names db)).map Prod.fst
        = (add_candidates names db).candidates.map Candidate.id := by
      rw [hids]
      conv_rhs => rw [← List.map_id ((add_candidates names db).candidates.map Candidate.id)]
      apply List.map_congr_left
      intro i hi
      exact sqlite3_column_int_fits i (hsorted.2 i hi) (le_trans (hbelow.2 i hi) hfit)
    refine ⟨hread, ?_, ?_⟩
    · rw [hread]
      exact hsorted.1.imp (fun h => ne_of_lt h)
    · rw [hread]
      exact hsorted.2

/-- Witness of C7 amended: "A", "B", "C" added to the empty store are listed
with the ids 1, 2, 3. -/
theorem list_after_adding_witness :
    Db.empty.candidates = [] ∧
      max Db.empty.seq_candidates 0 + ((["A", "B", "C"] : List String).length : Int)
        ≤ INT_MAX ∧
      list_candidates Engine.ok (add_candidates ["A", "B", "C"] Db.empty)
        = [(1, "A"), (2, "B"), (3, "C")] ∧
      (list_candidates Engine.ok (add_candidates ["A", "B", "C"] Db.empty)).map Prod.snd
        = ["A", "B", "C"] ∧
      ((list_candidates Engine.ok (add_candidates ["A", "B", "C"] Db.empty)).map
        Prod.fst).Nodup ∧
      (∀ id ∈ (list_candidates Engine.ok (add_candidates ["A", "B", "C"] Db.empty)).map
        Prod.fst, 0 < id) := by
  have hfit : max Db.empty.seq_candidates 0 + ((["A", "B", "C"] : List String).length : Int)
      ≤ INT_MAX := by decide
  have h := list_after_adding Db.empty ["A", "B", "C"] rfl
  exact ⟨rfl, hfit, by decide, h.1, (h.2.2.2.2.2.2 hfit).2.1, (h.2.2.2.2.2.2 hfit).2.2⟩

/-! ## The demo sequence -/

/-- C8: whatever the three tables and the counters held before, the demo
sequence of `main` on a sound engine registers both users successfully, leaves
exactly the three candidate rows with ids 1, 2, 3, makes `vote(1, 1)` return 0
and `vote(2, 999)` return 1 with the candidate-not-found message, and ends
with exactly one Vote row, the one of user 1 for candidate 1. -/
theorem main_demo_outcome (db : Db) (clk : Nat → Clock) :
    (main_demo (fun _ => Engine.ok) clk db).user1.rc = 0 ∧
    (main_demo (fun _ => Engine.ok) clk db).user2.rc = 0 ∧
    (main_demo (fun _ => Engine.ok) clk db).db.users.map (fun r => (r.username, r.password_hash))
      = [("user1", "hash123"), ("user2", "hash456")] ∧
    (main_demo (fun _ => Engine.ok) clk db).cand_a.rc = 0 ∧
    (main_demo (fun _ => Engine.ok) clk db).db.candidates
      = [⟨1, "Candidate A"⟩, ⟨2, "Candidate B"⟩, ⟨3, "Candidate C"⟩] ∧
    (main_demo (fun _ => Engine.ok) clk db).listing
      = [(1, "Candidate A"), (2, "Candidate B"), (3, "Candidate C")] ∧
    (main_demo (fun _ => Engine.ok) clk db).vote1.rc = 0 ∧
    (main_demo (fun _ => Engine.ok) clk db).vote1.db.votes.length = 1 ∧
    (main_demo (fun _ => Engine.ok) clk db).vote2.rc = 1 ∧
    (main_demo (fun _ => Engine.ok) clk db).vote2.out = [Msg.candidate_not_found 999] ∧
    (main_demo (fun _ => Engine.ok) clk db).db.votes.length = 1 ∧
    (main_demo (fun _ => Engine.ok) clk db).db.votes.map (fun v => (v.user_id, v.candidate_id))
      = [(1, 1)] := by
  have hn1 : new_rowid [] 0 = 1 := by decide
  have hn2 : new_rowid [1] 1 = 2 := by decide
  have hn3 : new_rowid [1, 2] 2 = 3 := by decide
  have hc1 : sqlite3_column_int 1 = 1 := by decide
  have hc2 : sqlite3_column_int 2 = 2 := by decide
  have hc3 : sqlite3_column_int 3 = 3 := by decide
  simp [main_demo, sqlite3_exec_ok, register_user_ok, add_candidate_ok, vote_ok,
    list_candidates_ok, hn1, hn2, hn3, hc1, hc2, hc3]

/-! ## Invariants of the reachable stores -/

/-- C5: in every store reached from the empty store by a finite sequence of
`register_user`, `add_candidate` and `vote` calls with any arguments, each
user_id has at most one Vote row.  The engine may fail to prepare any
statement and to run any insert; the prior-vote lookup, once prepared, runs. -/
theorem at_most_one_vote_per_user (calls : List Call)
    (hengine : ∀ c ∈ calls, c.engine.step Sql.select_vote = none) (u : Int) :
    votes_of (run_calls calls Db.empty) u ≤ 1 :=
  run_calls_keeps_one_vote calls Db.empty hengine (fun _ => Nat.zero_le 1) u

/-- Witness of C5: user 1 votes twice and ends with one Vote row. -/
theorem at_most_one_vote_per_user_witness :
    (∀ c ∈ calls_double_vote, c.engine.step Sql.select_vote = none) ∧
      votes_of (run_calls calls_double_vote Db.empty) 1 = 1 ∧
      votes_of (run_calls calls_double_vote Db.empty) 1 ≤ 1 := by
  have h : ∀ c ∈ calls_double_vote, c.engine.step Sql.select_vote = none := by
    intro c hc
    simp only [calls_double_vote, List.mem_cons, List.mem_singleton, List.not_mem_nil,
      or_false] at hc
    rcases hc with rfl | rfl | rfl | rfl <;> rfl
  exact ⟨h, by decide, at_most_one_vote_per_user calls_double_vote h 1⟩

/-- C10: `vote` never reads the users table: its return value, its output and
the votes it leaves are the same whatever the users table holds.  So after one
`add_candidate` on the empty store, `vote 7 1` returns 0 and inserts a Vote
row with user_id 7 although there is no user at all, and "every Vote row names
an existing user" fails in a reachable store; "every Vote row names an
existing candidate" holds in every store reached from the empty one by calls
during which the candidate lookup is prepared and run. -/
theorem vote_never_checks_user :
    (∀ (e : Engine) (clk : Clock) (db : Db) (users2 : List User) (u c : Int),
      (vote e clk { db with users := users2 } u c).rc = (vote e clk db u c).rc ∧
      (vote e clk { db with users := users2 } u c).out = (vote e clk db u c).out ∧
      (vote e clk { db with users := users2 } u c).db.votes = (vote e clk db u c).db.votes) ∧
    vote Engine.ok sample_clock (add_candidate Engine.ok Db.empty (some "A")).db 7 1 =
      ⟨0, [], ⟨[], [⟨1, "A"⟩], [⟨1, 7, 1, "2026-01-02 03:04:05"⟩], 0, 1, 1⟩⟩ ∧
    ¬ votes_name_users (run_calls calls_unregistered_voter Db.empty) ∧
    (∀ calls : List Call,
      (∀ c ∈ calls, c.engine.prepare Sql.select_candidate = none ∧
        c.engine.step Sql.select_candidate = none) →
      votes_name_candidates (run_calls calls Db.empty)) := by
  refine ⟨vote_ignores_users_table, by decide, ?_, ?_⟩
  · intro h
    have hv : (⟨1, 7, 1, "2026-01-02 03:04:05"⟩ : Vote) ∈
        (run_calls calls_unregistered_voter Db.empty).votes := by decide
    obtain ⟨r, hr, -⟩ := h _ hv
    have hu : (run_calls calls_unregistered_voter Db.empty).users = [] := by decide
    rw [hu] at hr
    exact List.not_mem_nil r hr
  · intro calls hq
    exact run_calls_keeps_candidates calls Db.empty hq (fun v hv => absurd hv (List.not_mem_nil v))

/-- Witness of C10: the only Vote row of the unregistered voter names
candidate 1, which exists. -/
theorem vote_never_checks_user_witness :
    (∀ c ∈ calls_unregistered_voter, c.engine.prepare Sql.select_candidate = none ∧
        c.engine.step Sql.select_candidate = none) ∧
      votes_name_candidates (run_calls calls_unregistered_voter Db.empty) ∧
      (run_calls calls_unregistered_voter Db.empty).votes.map
        (fun v => (v.user_id, v.candidate_id)) = [(7, 1)] ∧
      (run_calls calls_unregistered_voter Db.empty).users = [] := by
  have h : ∀ c ∈ calls_unregistered_voter, c.engine.prepare Sql.select_candidate = none ∧
      c.engine.step Sql.select_candidate = none := by
    intro c hc
    simp only [calls_unregistered_voter, List.mem_cons, List.mem_singleton, List.not_mem_nil,
      or_false] at hc
    rcases hc with rfl | rfl <;> exact ⟨rfl, rfl⟩
  exact ⟨h, vote_never_checks_user.2.2.2 calls_unregistered_voter h, by decide, by decide⟩

/-! ## Failed preparation -/

/-- When the engine cannot prepare the username lookup or the user insert,
`register_user` returns non-zero and inserts nothing; likewise `add_candidate`
for its insert, and `vote` for the prior-vote lookup and for the vote
insert. -/
theorem unprepared_statement_aborts (e : Engine) (clk : Clock) (db : Db)
    (username password_hash name : Option String) (user_id candidate_id : Int)
    (err : ErrCode) :
    (e.prepare Sql.select_user = some err →
      register_user e db username password_hash = ⟨1, [Msg.user_exists], db⟩) ∧
    (e.prepare Sql.insert_user = some err →
      (register_user e db username password_hash).rc ≠ 0 ∧
        (register_user e db username password_hash).db = db) ∧
    (e.prepare Sql.insert_candidate = some err →
      (add_candidate e db name).rc ≠ 0 ∧ (add_candidate e db name).db = db) ∧
    (e.prepare Sql.select_vote = some err →
      vote e clk db user_id candidate_id = ⟨1, [Msg.already_voted], db⟩) ∧
    (e.prepare Sql.insert_vote = some err →
      (vote e clk db user_id candidate_id).rc ≠ 0 ∧
        (vote e clk db user_id candidate_id).db = db) := by
  have herr := err.is_error.1
  refine ⟨?_, ?_, ?_, ?_, ?_⟩
  · intro hp
    simp [register_user, check_user_exists, sqlite3_prepare_v2, hp, herr]
  · intro hp
    by_cases hc : check_user_exists e db username = 0
    · simp [register_user, hc, add_user, sqlite3_prepare_v2, hp, herr]
    · simp [register_user, hc]
  · intro hp
    simp [add_candidate, sqlite3_prepare_v2, hp, herr]
  · intro hp
    simp [vote, has_voted, sqlite3_prepare_v2, hp, herr]
  · intro hp
    by_cases h1 : has_voted e db user_id = 0
    · by_cases h2 : candidate_exists e db candidate_id = 0
      · simp [vote, h1, h2]
      · simp [vote, h1, h2, sqlite3_prepare_v2, hp, herr]
    · simp [vote, h1]

/-- When the engine cannot prepare the candidate lookup, `candidate_exists`
returns -1 and `vote` goes on: if the user has no vote recorded and the insert
runs, it returns 0 and appends a Vote row, whatever candidate_id is. -/
theorem unprepared_candidate_lookup_inserts (e : Engine) (clk : Clock) (db : Db)
    (user_id candidate_id : Int) (err : ErrCode)
    (hp : e.prepare Sql.select_candidate = some err)
    (hvoted : has_voted e db user_id = 0)
    (hprep : e.prepare Sql.insert_vote = none) (hstep : e.step Sql.insert_vote = none) :
    candidate_exists e db candidate_id = -1 ∧
      vote e clk db user_id candidate_id =
        ⟨0, [], { db with
          votes := db.votes ++ [⟨new_rowid (db.votes.map Vote.id) db.seq_votes, user_id,
            candidate_id, timestamp_array clk⟩],
          seq_votes := new_rowid (db.votes.map Vote.id) db.seq_votes }⟩ := by
  have hce : candidate_exists e db candidate_id = -1 := by
    simp [candidate_exists, sqlite3_prepare_v2, hp, err.is_error.1]
  refine ⟨hce, ?_⟩
  simp [vote, hvoted, hce, sqlite3_prepare_v2, hprep, step_insert_vote, hstep]

/-- C6 fails on the code: with an engine that cannot prepare the candidate
lookup, `candidate_exists` returns -1, which `vote` takes for "exists":
`vote(2, 999)` on the store of the demo returns 0 and inserts a Vote row for
the candidate 999 that no Candidate row has. -/
theorem vote_unprepared_candidate_lookup_not_aborted :
    sqlite3_prepare_v2 (Engine.prepare_fails Sql.select_candidate) Sql.select_candidate
        ≠ SQLITE_OK ∧
      candidate_exists (Engine.prepare_fails Sql.select_candidate) db_registered 999 = -1 ∧
      (∀ r ∈ db_registered.candidates, r.id ≠ 999) ∧
      vote (Engine.prepare_fails Sql.select_candidate) sample_clock db_registered 2 999 =
        ⟨0, [], { db_registered with
          votes := [⟨1, 2, 999, "2026-01-02 03:04:05"⟩], seq_votes := 1 }⟩ := by
  decide

end VotingSystem
